import Mathlib

/-!
Shallow embedding of the LLM-Powered Inventory Management System monitor core
(`m_monitor_system.py` and the monitor-related parts of `server.py`).

Modelling conventions:
* Python strings are Lean `String`s; the model is faithful for ASCII text
  (Python's `str.isdigit`/`int`/`float` additionally accept some non-ASCII
  numerals, which no probe output in this system produces).
* Python `float` values arising from parsing decimal text are represented
  exactly as rationals (`ℚ`); `int` versus `float` is tracked by `PyNum`.
* Code that can raise an exception is modelled in `Except Unit`.
* Wall-clock timestamps are replaced by an abstract tick counter.
-/

set_option autoImplicit false

namespace Monitor

/-! ### Python string primitives -/

/-- Model of Python `str.strip()` on a character list (ASCII whitespace). -/
def pyStripChars (l : List Char) : List Char :=
  ((l.dropWhile Char.isWhitespace).reverse.dropWhile Char.isWhitespace).reverse

/-- Model of Python `str.strip()`. -/
def pyStrip (s : String) : String :=
  ⟨pyStripChars s.toList⟩

/-- Model of Python `str.isdigit()` restricted to ASCII: nonempty and all digits. -/
def pyIsDigitList (l : List Char) : Bool :=
  !l.isEmpty && l.all Char.isDigit

/-- Model of Python `str.isdigit()` on strings. -/
def pyIsDigit (s : String) : Bool :=
  pyIsDigitList s.toList

/-- Model of Python `str.replace(c, "", 1)`: drop the first occurrence of `c`. -/
def removeFirst (c : Char) : List Char → List Char
  | [] => []
  | x :: xs => if x = c then xs else x :: removeFirst c xs

/-- Model of Python `str.lower()` (ASCII). -/
def pyLower (s : String) : String :=
  ⟨s.toList.map Char.toLower⟩

/-- Containment of one character list in another, as in Python `sub in s`. -/
def listContainsSub (sub : List Char) : List Char → Bool
  | [] => sub.isEmpty
  | x :: xs => sub.isPrefixOf (x :: xs) || listContainsSub sub xs

/-- Model of Python `sub in s` for strings. -/
def containsSub (sub s : String) : Bool :=
  listContainsSub sub.toList s.toList

/-- Numeric value of a list of ASCII digits. -/
def digitsToNat (l : List Char) : Nat :=
  l.foldl (fun a c => a * 10 + (c.toNat - ('0').toNat)) 0

/-- Digit groups separated by single underscores, as accepted by Python `int`:
`digits(_digits)*`; `splitOn` yields an empty group exactly on a leading,
trailing, doubled underscore or an empty input. -/
def pyUIntParse (l : List Char) : Option Nat :=
  let groups := l.splitOn '_'
  if groups.all pyIsDigitList then some (digitsToNat groups.flatten) else none

/-- Model of Python `int(s)`: strips whitespace, optional sign, digits with
single underscores between digit groups. Returns `none` where `int` raises
`ValueError`. -/
def pyIntParse (s : String) : Option Int :=
  match pyStripChars s.toList with
  | '-' :: rest => (pyUIntParse rest).map (fun n => -(n : Int))
  | '+' :: rest => (pyUIntParse rest).map (fun n => (n : Int))
  | l => (pyUIntParse l).map (fun n => (n : Int))

/-- Unsigned decimal-literal part of Python `float(s)`: `D+ | D+.D* | .D+`.
Exponents, underscores and `inf`/`nan` are unreachable at this system's call
sites (the callers guard the text to digits with at most one dot and one
minus), so they are not modelled. -/
def pyFloatCore (l : List Char) : Option ℚ :=
  match l.splitOn '.' with
  | [ip] =>
      if pyIsDigitList ip then some (digitsToNat ip : ℚ) else none
  | [ip, fp] =>
      if ip.all Char.isDigit && fp.all Char.isDigit && !(ip.isEmpty && fp.isEmpty) then
        some ((digitsToNat ip : ℚ) + (digitsToNat fp : ℚ) / ((10 : ℚ) ^ fp.length))
      else none
  | _ => none

/-- Model of Python `float(s)` at this system's call sites; `none` where
`float` raises `ValueError`. -/
def pyFloatParse (s : String) : Option ℚ :=
  match pyStripChars s.toList with
  | '-' :: rest => (pyFloatCore rest).map Neg.neg
  | '+' :: rest => pyFloatCore rest
  | l => pyFloatCore l

/-- Equality of modelled outcomes (`Except Unit _`) is decidable, enabling
concrete evaluation in witnesses. -/
instance exceptDecEq {ε α : Type} [DecidableEq ε] [DecidableEq α] :
    DecidableEq (Except ε α) := fun a b =>
  match a, b with
  | .ok x, .ok y =>
    if h : x = y then isTrue (by rw [h]) else isFalse (by intro hc; cases hc; exact h rfl)
  | .error x, .error y =>
    if h : x = y then isTrue (by rw [h]) else isFalse (by intro hc; cases hc; exact h rfl)
  | .ok _, .error _ => isFalse (by intro hc; cases hc)
  | .error _, .ok _ => isFalse (by intro hc; cases hc)

/-! ### Parsed numeric values -/

/-- A Python number as produced by the metric parsers: `int` or `float`.
Float values in this system come from exact decimal text, so a rational
carries them without loss. -/
inductive PyNum where
  | pyInt : Int → PyNum
  | pyFloat : ℚ → PyNum
deriving DecidableEq, Repr

/-- Numeric value of a `PyNum`, used for Python's cross-type `int`/`float`
comparisons. -/
def PyNum.toQ : PyNum → ℚ
  | .pyInt n => (n : ℚ)
  | .pyFloat q => q

/-! ### The metric output parsers (`parse_metric_output` and its table) -/

/-- Drop a literal prefix, or fail. -/
def dropLit (pre : String) (l : List Char) : Option (List Char) :=
  if pre.toList.isPrefixOf l then some (l.drop pre.toList.length) else none

/-- Leftmost-match search: try the matcher at every suffix, as `re.search`. -/
def searchL {α : Type} (pat : List Char → Option α) : List Char → Option α
  | [] => pat []
  | c :: rest =>
    match pat (c :: rest) with
    | some v => some v
    | none => searchL pat rest

/-- Matcher for the regex `time=([\d\.]+)\s*ms` at the start of the input,
returning the captured group. Greedy runs followed by disjoint literals make
backtracking irrelevant, so maximal runs are faithful. -/
def matchTimeMs (l : List Char) : Option (List Char) :=
  match dropLit "time=" l with
  | none => none
  | some rest =>
    let cap := rest.takeWhile (fun c => c.isDigit || c = '.')
    if cap.isEmpty then none
    else
      let rest2 := (rest.dropWhile (fun c => c.isDigit || c = '.')).dropWhile Char.isWhitespace
      match dropLit "ms" rest2 with
      | some _ => some cap
      | none => none

/-- Matcher for the regex `Package id 0:\s+\+?([0-9]+)Â°C` (literal as in the
source, mojibake included) at the start of the input. -/
def matchCpuTemp (l : List Char) : Option (List Char) :=
  match dropLit "Package id 0:" l with
  | none => none
  | some rest =>
    if (rest.takeWhile Char.isWhitespace).isEmpty then none
    else
      let rest2 := rest.dropWhile Char.isWhitespace
      let rest3 := match rest2 with
        | '+' :: r => r
        | r => r
      let cap := rest3.takeWhile Char.isDigit
      if cap.isEmpty then none
      else
        match dropLit "Â°C" (rest3.dropWhile Char.isDigit) with
        | some _ => some cap
        | none => none

/-- Matcher for the regex `fan1:\s+(\d+)` at the start of the input. -/
def matchFan1 (l : List Char) : Option (List Char) :=
  match dropLit "fan1:" l with
  | none => none
  | some rest =>
    if (rest.takeWhile Char.isWhitespace).isEmpty then none
    else
      let cap := (rest.dropWhile Char.isWhitespace).takeWhile Char.isDigit
      if cap.isEmpty then none else some cap

/-- The `enp0s1_*` parser lambdas: `int(out.strip()) if out.strip().isdigit()
else None`. Never raises. -/
def parseIntIfDigit (out : String) : Except Unit (Option PyNum) :=
  let st := pyStrip out
  if pyIsDigit st then .ok (some (.pyInt (digitsToNat st.toList : Int))) else .ok none

/-- The `cpu_temp` parser lambda: regex search then `int` of the capture. -/
def parseCpuTemp (out : String) : Except Unit (Option PyNum) :=
  match searchL matchCpuTemp out.toList with
  | some cap => .ok (some (.pyInt (digitsToNat cap : Int)))
  | none => .ok none

/-- The `fan1_speed` parser lambda: regex search then `int` of the capture. -/
def parseFan1 (out : String) : Except Unit (Option PyNum) :=
  match searchL matchFan1 out.toList with
  | some cap => .ok (some (.pyInt (digitsToNat cap : Int)))
  | none => .ok none

/-- The generic fallback lambda of `parse_metric_output`:
`float(out.strip()) if out.strip().replace(".", "", 1).replace("-", "", 1).isdigit()
else int(out.strip()) if out.strip().isdigit() else None`.
`float` can raise (`.error`) when the guarded text is not a float literal,
for example a minus sign in the middle. -/
def generic_numeric_parse (out : String) : Except Unit (Option PyNum) :=
  let st := pyStrip out
  if pyIsDigitList (removeFirst '-' (removeFirst '.' st.toList)) then
    match pyFloatParse st with
    | some q => .ok (some (.pyFloat q))
    | none => .error ()
  else if pyIsDigit st then .ok (some (.pyInt (digitsToNat st.toList : Int)))
  else .ok none

/-- The registered per-probe parser table (the `parsers` dict). -/
def parsersMap : List (String × (String → Except Unit (Option PyNum))) :=
  [("cpu_temp", parseCpuTemp),
   ("fan1_speed", parseFan1),
   ("enp0s1_drops", parseIntIfDigit),
   ("enp0s1_rx_queue_0_packets", parseIntIfDigit),
   ("enp0s1_rx_queue_0_bytes", parseIntIfDigit),
   ("enp0s1_rx_queue_0_drops", parseIntIfDigit),
   ("enp0s1_rx_queue_0_kicks", parseIntIfDigit)]

/-- Model of `parse_metric_output(name, output)`: the `ping_rtt` regex branch,
the empty-output early returns, the registered parser table, and the generic
fallback. `.error` marks a raised exception. -/
def parse_metric_output (name output : String) : Except Unit (Option PyNum) :=
  if name = "ping_rtt" then
    if output = "" then .ok none
    else
      match searchL matchTimeMs output.toList with
      | some cap =>
        match pyFloatParse (⟨cap⟩ : String) with
        | some q => .ok (some (.pyFloat q))
        | none => .error ()
      | none => .ok none
  else if output = "" then .ok none
  else
    match parsersMap.lookup name with
    | some p => p output
    | none => generic_numeric_parse output

/-! ### Data model (`monitor_settings.json` / `metrics_config.json` shapes) -/

/-- Threshold bounds of one metric setting; `alert` is stored but never read
by the sampler. -/
structure Thresholds where
  max? : Option ℚ
  min? : Option ℚ
  alert : Bool
deriving DecidableEq, Repr

/-- One entry of `settings["metrics"]`. -/
structure MetricSetting where
  name : String
  enabled : Bool
  thresholds : Thresholds
deriving DecidableEq, Repr

/-- The `settings["general"]` record. The JSON-level `.get` defaults of the
source are absorbed into total fields. -/
structure GeneralSettings where
  interval : ℚ
  max_rows : Nat
  ping_hosts : List String
deriving DecidableEq, Repr

/-- The monitor settings file content. -/
structure Settings where
  general : GeneralSettings
  metrics : List MetricSetting
deriving DecidableEq, Repr

/-- Probe type tags of `metrics_config.json`. -/
inductive ProbeType where
  | static | dynamic_single | dynamic_multi
deriving DecidableEq, Repr

/-- One probe of the registry. -/
structure Probe where
  name : String
  command : String
  type : ProbeType
deriving DecidableEq, Repr

/-- One section of `metrics_config.json`. -/
structure MSection where
  title : String
  metrics : List Probe
deriving DecidableEq, Repr

/-- The registry file content (`metrics_config.json`). -/
structure MetricsConfig where
  sections : List MSection
deriving DecidableEq, Repr

/-- All probes of a registry, in section order. -/
def allProbes (cfg : MetricsConfig) : List Probe :=
  (cfg.sections.map MSection.metrics).flatten

/-- Names of the `dynamic_single` probes of a registry, in order. -/
def dynamicNames (cfg : MetricsConfig) : List String :=
  ((allProbes cfg).filter (fun p => p.type = ProbeType.dynamic_single)).map Probe.name

/-- The `enabled_metrics` comprehension:
names of settings entries with `enabled` set. -/
def enabledNames (settings : Settings) : List String :=
  (settings.metrics.filter MetricSetting.enabled).map MetricSetting.name

/-- The `next((m["thresholds"] for m in settings["metrics"] if m["name"] == name), {})`
lookup: thresholds of the first matching setting, else the empty dict (whose
`.get("max")`/`.get("min")` are `None`). -/
def lookupThresholds (settings : Settings) (name : String) : Thresholds :=
  match settings.metrics.find? (fun m => m.name = name) with
  | some m => m.thresholds
  | none => ⟨none, none, false⟩

/-! ### Metric collection (`collect_metrics`) -/

/-- Which bound a violation breached. The source renders this together with
the bound value as the string `"max=…"` or `"min=…"`; the model keeps the
pair structurally. -/
inductive BoundKind where
  | maxB | minB
deriving DecidableEq, Repr

/-- One violation record appended by `collect_metrics`. -/
structure Violation where
  metric : String
  value : PyNum
  bound : BoundKind
  boundValue : ℚ
deriving DecidableEq, Repr

/-- The threshold comparison of one collected value (source lines 316–320):
a max violation iff `max` is set and `value > max`, then independently a min
violation iff `min` is set and `value < min`. -/
def checkThresholds (settings : Settings) (name : String) (v : PyNum) : List Violation :=
  let th := lookupThresholds settings name
  (match th.max? with
   | some mx => if v.toQ > mx then [⟨name, v, .maxB, mx⟩] else []
   | none => []) ++
  (match th.min? with
   | some mn => if v.toQ < mn then [⟨name, v, .minB, mn⟩] else []
   | none => [])

/-- Python dict assignment `d[k] = v`: overwrite in place, else append. -/
def dictInsert (d : List (String × PyNum)) (k : String) (v : PyNum) : List (String × PyNum) :=
  match d with
  | [] => [(k, v)]
  | (k0, v0) :: rest => if k0 = k then (k0, v) :: rest else (k0, v0) :: dictInsert rest k v

/-- The body of the `collect_metrics` loop for one enabled `dynamic_single`
probe: run the command, parse, threshold-check. Returns the metric entry (if
any), the violations, and the names for which the parse-failure debug warning
was printed. `.error` models an uncaught exception (for example `float`
raising inside the parser, or indexing an empty `ping_hosts` list). -/
def collectOne (settings : Settings) (runCmd : String → String) (metric : Probe) :
    Except Unit (Option (String × PyNum) × List Violation × List String) :=
  let name := metric.name
  if name = "ping_rtt" then
    match settings.general.ping_hosts with
    | [] => .error ()
    | host :: _ =>
      let output := runCmd ("ping -c 1 " ++ host)
      if output = "" then .ok (none, [], [])
      else if containsSub "unreachable" (pyLower output)
           || containsSub "100% packet loss" (pyLower output) then
        .ok (none, [], [])
      else
        match parse_metric_output name output with
        | .error e => .error e
        | .ok none => .ok (none, [], [])
        | .ok (some v) => .ok (some (name, v), checkThresholds settings name v, [])
  else if metric.command = "" then .ok (none, [], [])
  else
    let output := runCmd metric.command
    if output = "" then .ok (none, [], [])
    else
      match parse_metric_output name output with
      | .error e => .error e
      | .ok none => .ok (none, [], [name])
      | .ok (some v) => .ok (some (name, v), checkThresholds settings name v, [])

/-- The probe traversal of `collect_metrics`: visit every probe of every
section in order, handling the enabled `dynamic_single` ones. -/
def collectFold (settings : Settings) (runCmd : String → String) :
    List Probe → (List (String × PyNum) × List Violation × List String) →
    Except Unit (List (String × PyNum) × List Violation × List String)
  | [], acc => .ok acc
  | p :: ps, (ms, vs, ws) =>
    if p.type = ProbeType.dynamic_single ∧ p.name ∈ enabledNames settings then
      match collectOne settings runCmd p with
      | .error e => .error e
      | .ok (entry?, nvs, nws) =>
        let ms2 := match entry? with
          | some (k, v) => dictInsert ms k v
          | none => ms
        collectFold settings runCmd ps (ms2, vs ++ nvs, ws ++ nws)
    else collectFold settings runCmd ps (ms, vs, ws)

/-- Model of `collect_metrics(settings, metrics_config)`: early return when no
metric is enabled, else the ordered traversal of all sections. The injected
`runCmd` capability stands for `run_command` (which returns `""` on any
failure). -/
def collect_metrics (settings : Settings) (cfg : MetricsConfig) (runCmd : String → String) :
    Except Unit (List (String × PyNum) × List Violation × List String) :=
  if enabledNames settings = [] then .ok ([], [], [])
  else collectFold settings runCmd (allProbes cfg) ([], [], [])

/-! ### History buffer, statistics and the audit log -/

/-- One sample record; `tick` stands in for the wall-clock timestamp string. -/
structure SampleRecord where
  tick : Nat
  metrics : List (String × PyNum)
  violations : List Violation
deriving DecidableEq, Repr

/-- Append on a `collections.deque(maxlen=cap)`: add at the right, dropping
from the left whatever exceeds the capacity. -/
def dequeAppend {α : Type} (cap : Nat) (h : List α) (x : α) : List α :=
  let h2 := h ++ [x]
  h2.drop (h2.length - cap)

/-- Folding a whole insertion sequence into an initially empty deque. -/
def dequeFold {α : Type} (cap : Nat) (l : List α) : List α :=
  l.foldl (dequeAppend cap) []

/-- Append on the server's plain-list `metrics_history`. -/
def serverHistoryAppend {α : Type} (h : List α) (x : α) : List α :=
  h ++ [x]

/-- First-match association lookup in a record's metrics dict. -/
def lookupMetric (d : List (String × PyNum)) (k : String) : Option PyNum :=
  match d.find? (fun kv => kv.1 = k) with
  | some kv => some kv.2
  | none => none

/-- The comprehension `[e["metrics"].get(name) for e in history if … is not None]`:
values of one probe present in the buffer, in order. -/
def presentValues (hist : List SampleRecord) (name : String) : List ℚ :=
  (hist.filterMap (fun e => lookupMetric e.metrics name)).map PyNum.toQ

/-- Model of `statistics.mean` on exact rationals. -/
def pyMean (l : List ℚ) : ℚ :=
  l.sum / (l.length : ℚ)

/-- Square of `statistics.stdev` (the sample standard deviation, `n - 1`
divisor) on exact rationals. The source stores the square root; the square
determines it together with nonnegativity. -/
def pyStdevSq (l : List ℚ) : ℚ :=
  ((l.map (fun x => (x - pyMean l) ^ 2)).sum) / ((l.length : ℚ) - 1)

/-- The `Mean` statistics row of `print_table` (lines 399–407): mean over the
present values, `N/A` (here `none`) when no value is present. -/
def tableMean (hist : List SampleRecord) (name : String) : Option ℚ :=
  let vs := presentValues hist name
  if vs = [] then none else some (pyMean vs)

/-- Square of the `Std` statistics row of `print_table`:
`stdev(values) if len(values) > 1 else 0.0`, `N/A` when no value is present. -/
def tableStdSq (hist : List SampleRecord) (name : String) : Option ℚ :=
  let vs := presentValues hist name
  if vs = [] then none else some (if 1 < vs.length then pyStdevSq vs else 0)

/-- Python `l[-n:]`: the last `n` elements. -/
def lastN {α : Type} (n : Nat) (l : List α) : List α :=
  l.drop (l.length - n)

/-- One persisted audit-log entry as built by `log_metrics`; `meanMap` and
`stdSqMap` carry the frozen per-probe statistics (square of the stored
standard deviation). -/
structure LogEntry where
  tick : Nat
  metrics : List (String × PyNum)
  thresholds : List (String × Thresholds)
  violations : List Violation
  meanMap : List (String × ℚ)
  stdSqMap : List (String × ℚ)
deriving DecidableEq, Repr

/-- Model of `log_metrics`: statistics per probe of the current tick, over the
present values among the last 5 records of the history (which already contains
the current record), skipped when no value is present. -/
def log_metrics_entry (tick : Nat) (metrics : List (String × PyNum))
    (violations : List Violation) (settings : Settings)
    (histAfter : List SampleRecord) : LogEntry :=
  { tick := tick
    metrics := metrics
    thresholds := settings.metrics.map (fun m => (m.name, m.thresholds))
    violations := violations
    meanMap := metrics.filterMap (fun kv =>
      let vs := presentValues (lastN 5 histAfter) kv.1
      if vs = [] then none else some (kv.1, pyMean vs))
    stdSqMap := metrics.filterMap (fun kv =>
      let vs := presentValues (lastN 5 histAfter) kv.1
      if vs = [] then none else some (kv.1, if 1 < vs.length then pyStdevSq vs else 0)) }

/-! ### The background sampling loop -/

/-- State threaded through the tick loop: the bounded in-memory buffer, the
persisted audit log, and the full sequence of produced records. -/
structure LoopState where
  buffer : List SampleRecord
  audit : List LogEntry
  records : List SampleRecord
  warnings : List String
deriving DecidableEq, Repr

/-- One iteration of `background_monitor_loop`: collect, append to the deque,
then write the audit entry. The parse-failure debug messages printed during
the tick are accumulated in `warnings` (the source keeps no memory of them:
`warned_metrics` is initialized but never consulted). -/
def cliTick (settings : Settings) (cfg : MetricsConfig) (runCmd : String → String)
    (tick : Nat) (st : LoopState) : Except Unit LoopState :=
  match collect_metrics settings cfg runCmd with
  | .error e => .error e
  | .ok (ms, vs, ws) =>
    let r : SampleRecord := ⟨tick, ms, vs⟩
    let buf2 := dequeAppend 100 st.buffer r
    let entry := log_metrics_entry tick ms vs settings buf2
    .ok ⟨buf2, st.audit ++ [entry], st.records ++ [r], st.warnings ++ ws⟩

/-- Model of the CLI `background_monitor_loop` run for `n` ticks: the settings
file is re-read at the start of every iteration (`settingsAt t`), while the
metrics configuration is the in-memory value captured when the thread was
started (`cfg`), never re-read. `runCmdAt t` is the probe capability at tick
`t`. -/
def background_monitor_loop (settingsAt : Nat → Settings) (cfg : MetricsConfig)
    (runCmdAt : Nat → String → String) : Nat → Except Unit LoopState
  | 0 => .ok ⟨[], [], [], []⟩
  | n + 1 =>
    match background_monitor_loop settingsAt cfg runCmdAt n with
    | .error e => .error e
    | .ok st => cliTick (settingsAt n) cfg (runCmdAt n) n st

/-- Spec-side loop, following the claim's words: both the Settings and the
Registry are re-read from their files at the start of every tick. Used only
to compare against `background_monitor_loop`. -/
def reload_both_loop_spec (settingsAt : Nat → Settings) (cfgAt : Nat → MetricsConfig)
    (runCmdAt : Nat → String → String) : Nat → Except Unit LoopState
  | 0 => .ok ⟨[], [], [], []⟩
  | n + 1 =>
    match reload_both_loop_spec settingsAt cfgAt runCmdAt n with
    | .error e => .error e
    | .ok st => cliTick (settingsAt n) (cfgAt n) (runCmdAt n) n st

/-! ### Instance guard (`check_existing_instance`) and the start paths -/

/-- In-memory and token-file state relevant to the start/stop lifecycle.
`pidFile` is the content of `m_monitor_system.pid` (`none` when absent);
`threadLaunched` records whether a background tick thread was started;
`history` is the shared buffer (untouched by `start` itself). -/
structure MonState where
  pidFile : Option String
  running : Bool
  monitoringActive : Bool
  threadLaunched : Bool
  history : List SampleRecord
deriving DecidableEq, Repr

/-- Model of `check_existing_instance()`. `alive pid` models `os.kill(pid, 0)`
succeeding. Returns the Python return value and the resulting token file:
absent file ⇒ `None`; unreadable integer or dead process ⇒ delete the file and
return `None`; otherwise return the stored pid — also when it is the caller's
own. -/
def check_existing_instance (ownPid : Int) (alive : Int → Bool)
    (pidFile : Option String) : Option Int × Option String :=
  match pidFile with
  | none => (none, none)
  | some content =>
    match pyIntParse (pyStrip content) with
    | none => (none, none)
    | some pid =>
      if pid ≠ ownPid then
        if alive pid then (some pid, pidFile) else (none, none)
      else (some pid, pidFile)

/-- Python truthiness of the value returned by `check_existing_instance`, as
used in `if check_existing_instance():` and `if existing_pid:`. -/
def pidTruthy : Option Int → Bool
  | none => false
  | some p => p ≠ 0

/-- Result of a menu/server action: the `{"success": …, "output": …}` dict, or
the printed refusal/acknowledgement message. -/
structure ActionResult where
  success : Bool
  output : String
deriving DecidableEq, Repr

/-- Model of `handle_monitor_action("start_monitoring")` (server action
handler): refuse when the guard reports a holder (message without the pid),
refuse when no metric is enabled; otherwise set the flags, write the caller's
pid to the token file, and launch the background thread. -/
def handle_start_monitoring (ownPid : Int) (alive : Int → Bool)
    (settings : Settings) (st : MonState) : ActionResult × MonState :=
  let res := check_existing_instance ownPid alive st.pidFile
  if pidTruthy res.1 then
    (⟨false, "Another instance is running."⟩, { st with pidFile := res.2 })
  else if enabledNames settings = [] then
    (⟨false, "No metrics enabled."⟩, { st with pidFile := res.2 })
  else
    (⟨true, "Monitoring started."⟩,
     { st with
        pidFile := some (toString ownPid)
        running := true
        monitoringActive := true
        threadLaunched := true })

/-- Model of the interactive `main_menu` start branch (choice "1"): same
checks, but the refusal message cites the holder's pid, and the token is
written only when the file is absent (it always is at that point, the check
having just reported free). -/
def main_menu_start (ownPid : Int) (alive : Int → Bool)
    (settings : Settings) (st : MonState) : ActionResult × MonState :=
  let res := check_existing_instance ownPid alive st.pidFile
  if pidTruthy res.1 then
    (⟨false, "Another instance is running (PID: " ++ toString (res.1.getD 0) ++
             "). Please stop it first."⟩,
     { st with pidFile := res.2 })
  else if enabledNames settings = [] then
    (⟨false, "No metrics enabled. Configure settings to enable metrics."⟩,
     { st with pidFile := res.2 })
  else
    (⟨true, "Monitoring display started. Press Space to return to menu."⟩,
     { st with
        pidFile := match res.2 with
          | none => some (toString ownPid)
          | some c => some c
        running := true
        monitoringActive := true
        threadLaunched := true })

/-! ### Settings regeneration and reconciliation -/

/-- The default thresholds written for a freshly discovered probe:
`max=100.0, min=0.0` for `ping_rtt`, both absent otherwise, `alert` set. -/
def defaultThresholds (name : String) : Thresholds :=
  ⟨if name = "ping_rtt" then some 100 else none,
   if name = "ping_rtt" then some 0 else none,
   true⟩

/-- The default metric setting appended for a probe with no stored setting:
disabled except the baseline `ping_rtt` probe. -/
def defaultSetting (name : String) : MetricSetting :=
  ⟨name, name = "ping_rtt", defaultThresholds name⟩

/-- Model of `m_monitor_system.regenerate_monitor_settings`: keeps the general
options and replaces the whole metrics list with defaults for every
`dynamic_single` probe, discarding all stored flags and thresholds. -/
def regenerate_monitor_settings (cfg : MetricsConfig) (settings : Settings) : Settings :=
  ⟨settings.general, (dynamicNames cfg).map defaultSetting⟩

/-- The dict comprehension `{m["name"]: m for m in settings["metrics"]}`:
lookup in which a later duplicate shadows an earlier one. -/
def lookupLast (l : List MetricSetting) (n : String) : Option MetricSetting :=
  l.reverse.find? (fun m => m.name = n)

/-- Model of the server endpoint `/api/regenerate_monitor_settings`: one
setting per `dynamic_single` probe, keeping the stored enabled flag and
thresholds when a setting for that probe exists, defaults otherwise. -/
def server_regenerate_monitor_settings (cfg : MetricsConfig) (settings : Settings) : Settings :=
  ⟨settings.general,
   (dynamicNames cfg).map (fun n =>
     match lookupLast settings.metrics n with
     | some m => ⟨n, m.enabled, m.thresholds⟩
     | none => defaultSetting n)⟩

/-- Model of the reconciliation in `main()` (lines 936–953): drop settings
whose probe is no longer a `dynamic_single` probe; nothing is appended. -/
def main_reconcile (cfg : MetricsConfig) (settings : Settings) : Settings :=
  ⟨settings.general,
   settings.metrics.filter (fun m => m.name ∈ dynamicNames cfg)⟩

/-! ### Persistence discipline (`save_json` in both files) -/

/-- Filesystem operations issued by the writers. `writeFile` models
`open(path, "w")` followed by `write` (interruptible, truncates first);
`rename` models the atomic `os.replace`. -/
inductive FsOp where
  | writeFile (path content : String)
  | rename (src dst : String)
deriving DecidableEq, Repr

/-- A filesystem: content by path, `none` when absent. -/
def Fs : Type := String → Option String

/-- Effect of one completed operation. -/
def applyOp (op : FsOp) (fs : Fs) : Fs :=
  match op with
  | .writeFile p c => fun q => if q = p then some c else fs q
  | .rename s d => fun q => if q = d then fs s else if q = s then none else fs q

/-- States observable if execution stops during one operation: an interrupted
write leaves any prefix of the new content (including the empty file left by
the truncating open), or nothing happened yet; a rename is atomic. -/
inductive CrashMid : FsOp → Fs → Fs → Prop
  | before (op : FsOp) (fs : Fs) : CrashMid op fs fs
  | midWrite (p c : String) (fs : Fs) (k : Nat) (hk : k ≤ c.length) :
      CrashMid (.writeFile p c) fs (fun q => if q = p then some (⟨c.toList.take k⟩ : String) else fs q)
  | after (op : FsOp) (fs : Fs) : CrashMid op fs (applyOp op fs)

/-- States observable if execution of an operation sequence is interrupted at
any point (including running to completion). -/
inductive CrashReach : List FsOp → Fs → Fs → Prop
  | nil (fs : Fs) : CrashReach [] fs fs
  | mid (op : FsOp) (ops : List FsOp) (fs fs' : Fs) (h : CrashMid op fs fs') :
      CrashReach (op :: ops) fs fs'
  | step (op : FsOp) (ops : List FsOp) (fs fs' : Fs)
      (h : CrashReach ops (applyOp op fs) fs') :
      CrashReach (op :: ops) fs fs'

/-- Model of `m_monitor_system.save_json`: write the serialized data to
`path + ".tmp"`, then `os.replace` it over the target. -/
def save_json (path content : String) : List FsOp :=
  [.writeFile (path ++ ".tmp") content, .rename (path ++ ".tmp") path]

/-- Model of `server.save_json`: a single in-place write of the target. -/
def server_save_json (path content : String) : List FsOp :=
  [.writeFile path content]

/-! ### Concrete fixtures used by witnesses and counterexamples -/

/-- Liveness oracle under which every probed pid is alive. -/
def aliveAll : Int → Bool := fun _ => true

/-- Liveness oracle under which every probed pid is dead. -/
def deadAll : Int → Bool := fun _ => false

/-- Example settings: one enabled probe `temp` with threshold `max = 70`. -/
def exSettings : Settings :=
  ⟨⟨5, 5, ["google.com"]⟩, [⟨"temp", true, ⟨some 70, none, true⟩⟩]⟩

/-- Example registry: one `dynamic_single` probe `temp`. -/
def exCfg : MetricsConfig :=
  ⟨[⟨"Sensors", [⟨"temp", "cat /sys/temp", ProbeType.dynamic_single⟩]⟩]⟩

/-- The empty registry. -/
def emptyCfg : MetricsConfig := ⟨[]⟩

/-- Probe capability whose every command prints `72`. -/
def exRun : String → String := fun _ => "72"

/-- Probe capability whose every command prints the non-numeric text `abc`. -/
def badRun : String → String := fun _ => "abc"

/-- A registry file whose content is edited after the first tick: the `temp`
probe is removed. -/
def exCfgAt : Nat → MetricsConfig := fun t => if t = 0 then exCfg else emptyCfg

/-- A monitor state with an idle sampler and the given token file. -/
def idleState (pidFile : Option String) : MonState :=
  ⟨pidFile, false, false, false, []⟩

/-- Record sequence of a loop outcome (empty on a crashed loop). -/
def recordsOf : Except Unit LoopState → List SampleRecord
  | .ok st => st.records
  | .error _ => []

/-- Accumulated parse warnings of a loop outcome. -/
def warningsOf : Except Unit LoopState → List String
  | .ok st => st.warnings
  | .error _ => []

/-- Bounded buffer of a loop outcome. -/
def bufferOf : Except Unit LoopState → List SampleRecord
  | .ok st => st.buffer
  | .error _ => []

/-- Audit log of a loop outcome. -/
def auditOf : Except Unit LoopState → List LogEntry
  | .ok st => st.audit
  | .error _ => []

/-- A sample record carrying the given metrics and no violations. -/
def mkRec (t : Nat) (ms : List (String × PyNum)) : SampleRecord :=
  ⟨t, ms, []⟩

/-- A three-record history with values 10, 20, 30 for `m`. -/
def hist3 : List SampleRecord :=
  [mkRec 0 [("m", .pyFloat 10)], mkRec 1 [("m", .pyFloat 20)], mkRec 2 [("m", .pyFloat 30)]]

/-- A history where the middle record is missing a value for `m`. -/
def histMiss : List SampleRecord :=
  [mkRec 0 [("m", .pyFloat 10)], mkRec 1 [], mkRec 2 [("m", .pyFloat 30)]]

/-- A seven-record history with values 1 … 7 for `m`. -/
def hist7 : List SampleRecord :=
  (List.range 7).map (fun t => mkRec t [("m", .pyFloat ((t + 1 : Nat) : ℚ))])

/-- A filesystem holding old content of the settings file. -/
def fsOld : Fs :=
  fun p => if p = "monitor_settings.json" then some "old" else none

/-- The filesystem left by interrupting the server's in-place write of `"ab"`
after one character. -/
def fsBad : Fs :=
  fun q => if q = "monitor_settings.json"
           then some (⟨(("ab" : String).toList.take 1)⟩ : String) else fsOld q

/-- The filesystem after the CLI writer ran to completion on content `"ab"`. -/
def fsDone : Fs :=
  applyOp (.rename ("monitor_settings.json" ++ ".tmp") "monitor_settings.json")
    (applyOp (.writeFile ("monitor_settings.json" ++ ".tmp") "ab") fsOld)

/-! ### Helper lemmas -/

theorem removeFirst_of_not_mem (c : Char) (l : List Char) (h : c ∉ l) :
    removeFirst c l = l := by
  induction l with
  | nil => rfl
  | cons x xs ih =>
    simp only [List.mem_cons, not_or] at h
    simp only [removeFirst]
    rw [if_neg (fun he => h.1 he.symm), ih h.2]

theorem guard_of_isdigit (st : String) (h : pyIsDigit st = true) :
    pyIsDigitList (removeFirst '-' (removeFirst '.' st.toList)) = true := by
  have hall : ∀ c ∈ st.toList, c.isDigit = true := by
    have h2 := h
    simp only [pyIsDigit, pyIsDigitList, Bool.and_eq_true, List.all_eq_true] at h2
    exact h2.2
  have hdot : ('.' : Char) ∉ st.toList := fun hm => absurd (hall _ hm) (by decide)
  have hdash : ('-' : Char) ∉ st.toList := fun hm => absurd (hall _ hm) (by decide)
  rw [removeFirst_of_not_mem _ _ hdot, removeFirst_of_not_mem _ _ hdash]
  exact h

theorem generic_no_pyInt (out : String) (v : Int) :
    generic_numeric_parse out ≠ Except.ok (some (PyNum.pyInt v)) := by
  by_cases hg : pyIsDigitList (removeFirst '-' (removeFirst '.' (pyStrip out).toList)) = true
  · simp only [generic_numeric_parse, hg, if_true]
    cases pyFloatParse (pyStrip out) <;> simp
  · have hd : ¬ pyIsDigit (pyStrip out) = true := fun h => hg (guard_of_isdigit _ h)
    simp only [generic_numeric_parse, hg, hd, if_false]
    simp

theorem dequeFold_eq_drop {α : Type} (cap : Nat) (l : List α) :
    dequeFold cap l = l.drop (l.length - cap) := by
  induction l using List.reverseRecOn with
  | nil => simp [dequeFold]
  | append_singleton l x ih =>
    have hstep : dequeFold cap (l ++ [x]) = dequeAppend cap (dequeFold cap l) x := by
      simp [dequeFold, List.foldl_append]
    rw [hstep, ih]
    simp only [dequeAppend, List.length_append, List.length_drop, List.length_cons,
      List.length_nil]
    rcases le_or_lt cap l.length with hc | hc
    · have e1 : l.length - (l.length - cap) + 1 - cap = 1 := by omega
      have e2 : l.length + 1 - cap = (l.length - cap) + 1 := by omega
      rw [e1, e2, ← List.drop_drop 1 (l.length - cap) (l ++ [x]),
        List.drop_append_of_le_length (by omega : l.length - cap ≤ l.length)]
    · have e1 : l.length - cap = 0 := by omega
      rw [e1]
      simp

theorem foldl_serverHistoryAppend {α : Type} (l init : List α) :
    l.foldl serverHistoryAppend init = init ++ l := by
  induction l generalizing init with
  | nil => simp
  | cons x xs ih => simp [List.foldl_cons, serverHistoryAppend, ih]

theorem find?_name_of_nodup (l : List MetricSetting) (m : MetricSetting)
    (hn : (l.map MetricSetting.name).Nodup) (hm : m ∈ l) :
    l.find? (fun x => x.name = m.name) = some m := by
  induction l with
  | nil => cases hm
  | cons a t ih =>
    simp only [List.map_cons, List.nodup_cons] at hn
    rcases List.mem_cons.mp hm with rfl | hmt
    · simp [List.find?_cons]
    · have hne : a.name ≠ m.name := by
        intro he
        exact hn.1 (he ▸ List.mem_map_of_mem MetricSetting.name hmt)
      rw [List.find?_cons, decide_eq_false hne]
      exact ih hn.2 hmt

theorem lookupLast_of_nodup (l : List MetricSetting) (m : MetricSetting)
    (hn : (l.map MetricSetting.name).Nodup) (hm : m ∈ l) :
    lookupLast l m.name = some m := by
  unfold lookupLast
  apply find?_name_of_nodup
  · rw [List.map_reverse, List.nodup_reverse]
    exact hn
  · exact List.mem_reverse.mpr hm

theorem lookupLast_eq_none (l : List MetricSetting) (n : String)
    (h : ∀ m ∈ l, m.name ≠ n) : lookupLast l n = none := by
  unfold lookupLast
  rw [List.find?_eq_none]
  intro x hx
  simp only [decide_eq_true_eq]
  exact h x (List.mem_reverse.mp hx)

theorem lookupLast_mem (l : List MetricSetting) (n : String) (m : MetricSetting)
    (h : lookupLast l n = some m) : m ∈ l ∧ m.name = n := by
  unfold lookupLast at h
  refine ⟨List.mem_reverse.mp (List.mem_of_find?_eq_some h), ?_⟩
  have h2 := List.find?_some h
  simpa using h2

theorem tmp_ne_path (path : String) : path ++ ".tmp" ≠ path := by
  intro h
  have h2 := congrArg String.length h
  rw [String.length_append] at h2
  have h3 : (".tmp" : String).length = 4 := by decide
  omega

theorem listContainsSub_eq_true_iff (sub : List Char) : ∀ l : List Char,
    listContainsSub sub l = true ↔ sub <:+: l := by
  intro l
  induction l with
  | nil =>
    simp only [listContainsSub, List.isEmpty_iff, List.infix_nil]
  | cons x xs ih =>
    simp only [listContainsSub, Bool.or_eq_true, ih, List.isPrefixOf_iff_prefix,
      List.infix_cons_iff]

theorem containsSub_append_middle (s a b : String) :
    containsSub s (a ++ s ++ b) = true := by
  rw [containsSub, listContainsSub_eq_true_iff]
  have he : (a ++ s ++ b).toList = a.toList ++ s.toList ++ b.toList := by
    simp [String.toList, String.data_append]
  rw [he]
  exact List.infix_append _ _ _

theorem check_some_keeps_file (ownPid : Int) (alive : Int → Bool)
    (pidFile : Option String) (p : Int)
    (h : (check_existing_instance ownPid alive pidFile).1 = some p) :
    (check_existing_instance ownPid alive pidFile).2 = pidFile := by
  match pidFile with
  | none => simp [check_existing_instance] at h
  | some content =>
    cases hp : pyIntParse (pyStrip content) with
    | none => simp [check_existing_instance, hp] at h
    | some pid =>
      by_cases hne : pid = ownPid
      · simp [check_existing_instance, hp, hne]
      · cases ha : alive pid with
        | true => simp [check_existing_instance, hp, hne, ha]
        | false => simp [check_existing_instance, hp, hne, ha] at h

theorem check_none_clears_file (ownPid : Int) (alive : Int → Bool)
    (pidFile : Option String)
    (h : (check_existing_instance ownPid alive pidFile).1 = none) :
    (check_existing_instance ownPid alive pidFile).2 = none := by
  match pidFile with
  | none => rfl
  | some content =>
    cases hp : pyIntParse (pyStrip content) with
    | none => simp [check_existing_instance, hp]
    | some pid =>
      by_cases hne : pid = ownPid
      · simp [check_existing_instance, hp, hne] at h
      · cases ha : alive pid with
        | true => simp [check_existing_instance, hp, hne, ha] at h
        | false => simp [check_existing_instance, hp, hne, ha]

theorem check_file_cases (ownPid : Int) (alive : Int → Bool) (pidFile : Option String) :
    (check_existing_instance ownPid alive pidFile).2 = pidFile ∨
    (check_existing_instance ownPid alive pidFile).2 = none := by
  cases h : (check_existing_instance ownPid alive pidFile).1 with
  | none => exact Or.inr (check_none_clears_file _ _ _ h)
  | some p => exact Or.inl (check_some_keeps_file _ _ _ _ h)

/-! ### Claim C10 -/

/-- C10: a token file whose content does not parse as an integer is deleted by
the instance-guard check, which reports free without raising; a start with an
enabled metric then succeeds, so a malformed token never blocks `start()`. -/
theorem c10_malformed_token_cleared (ownPid : Int) (alive : Int → Bool)
    (content : String) (settings : Settings) (st : MonState)
    (h : pyIntParse (pyStrip content) = none)
    (hst : st.pidFile = some content)
    (he : enabledNames settings ≠ []) :
    check_existing_instance ownPid alive (some content) = (none, none) ∧
    (handle_start_monitoring ownPid alive settings st).1.success = true := by
  have hchk : check_existing_instance ownPid alive (some content) = (none, none) := by
    simp [check_existing_instance, h]
  refine ⟨hchk, ?_⟩
  simp [handle_start_monitoring, hst, hchk, pidTruthy, he]

/-- Witness for C10 at the malformed token `"junk"`. -/
theorem c10_malformed_token_cleared_witness :
    check_existing_instance 7 aliveAll (some "junk") = (none, none) ∧
    (handle_start_monitoring 7 aliveAll exSettings (idleState (some "junk"))).1.success = true :=
  c10_malformed_token_cleared 7 aliveAll "junk" exSettings (idleState (some "junk"))
    (by decide) (by decide) (by decide)

/-! ### Claim C2 -/

/-- C2 counterexample: a token file holding the caller's own pid makes the
check return that pid exactly as in the busy case — there is no distinct
"owned" result — and the start path treats it as a conflict and refuses the
owner, contrary to the claim. -/
theorem c2_owner_refused_counterexample :
    check_existing_instance 7 aliveAll (some "7") = (some 7, some "7") ∧
    check_existing_instance 7 aliveAll (some "42") = (some 42, some "42") ∧
    (handle_start_monitoring 7 aliveAll exSettings (idleState (some "7"))).1.success = false := by
  decide

/-- C2 (amended): the instance-guard check reports free on an absent file;
returns the stored pid unchanged both when it is the caller's own (so a start
path using the result as a boolean refuses the owner) and when it belongs to
a live other process; and on a dead other process deletes the stale token and
reports free, after which a start with an enabled metric succeeds. -/
theorem c2_check_cases (ownPid : Int) (alive : Int → Bool) (content : String)
    (pid : Int) (settings : Settings) (st : MonState)
    (hp : pyIntParse (pyStrip content) = some pid) :
    (check_existing_instance ownPid alive none = (none, none)) ∧
    (pid = ownPid →
       check_existing_instance ownPid alive (some content) = (some pid, some content) ∧
       (pid ≠ 0 → st.pidFile = some content →
          (handle_start_monitoring ownPid alive settings st).1.success = false)) ∧
    (pid ≠ ownPid → alive pid = true →
       check_existing_instance ownPid alive (some content) = (some pid, some content)) ∧
    (pid ≠ ownPid → alive pid = false →
       check_existing_instance ownPid alive (some content) = (none, none) ∧
       (st.pidFile = some content → enabledNames settings ≠ [] →
          (handle_start_monitoring ownPid alive settings st).1.success = true)) := by
  refine ⟨rfl, ?_, ?_, ?_⟩
  · intro hpe
    subst hpe
    have hchk : check_existing_instance pid alive (some content) =
        (some pid, some content) := by
      simp [check_existing_instance, hp]
    refine ⟨hchk, fun h0 hst => ?_⟩
    simp [handle_start_monitoring, hst, hchk, pidTruthy, h0]
  · intro hne ha
    simp [check_existing_instance, hp, hne, ha]
  · intro hne ha
    have hchk : check_existing_instance ownPid alive (some content) = (none, none) := by
      simp [check_existing_instance, hp, hne, ha]
    refine ⟨hchk, fun hst he => ?_⟩
    simp [handle_start_monitoring, hst, hchk, pidTruthy, he]

/-- Witness for C2: a stale token of dead pid 42 is cleared, and the next
start succeeds. -/
theorem c2_check_cases_witness :
    check_existing_instance 7 deadAll none = (none, none) ∧
    check_existing_instance 7 deadAll (some "42") = (none, none) ∧
    (handle_start_monitoring 7 deadAll exSettings (idleState (some "42"))).1.success = true := by
  have h := c2_check_cases 7 deadAll "42" 42 exSettings (idleState (some "42")) (by decide)
  have h4 := h.2.2.2 (by decide) (by decide)
  exact ⟨h.1, h4.1, h4.2 (by decide) (by decide)⟩

/-! ### Claim C1 -/

/-- C1 counterexample: with a live holder (pid 42), the action-handler start
path refuses, but its AlreadyRunning message does not reference the holder's
process id, contrary to the claim that every refusal does. -/
theorem c1_refusal_without_pid_counterexample :
    (handle_start_monitoring 7 aliveAll exSettings (idleState (some "42"))).1 =
      ⟨false, "Another instance is running."⟩ ∧
    containsSub "42" "Another instance is running." = false := by
  decide

/-- C1 (amended): when the guard reports a live holder both start paths
refuse — the interactive-menu message references the holder's pid, the
action-handler message does not — and when no metric is enabled both refuse
with the NoMetricsEnabled message; in every refusal no token is written
(beyond the check's own stale-token cleanup) and the flags, thread and
history are untouched; when the check reports free and a metric is enabled,
both paths write the caller's pid to the token, set the running flags, launch
the tick thread and leave the history untouched (the first tick has not run). -/
theorem c1_start_lifecycle (ownPid : Int) (alive : Int → Bool)
    (settings : Settings) (st : MonState) :
    (pidTruthy (check_existing_instance ownPid alive st.pidFile).1 = true →
       (handle_start_monitoring ownPid alive settings st).1.success = false ∧
       (handle_start_monitoring ownPid alive settings st).1.output =
         "Another instance is running." ∧
       (main_menu_start ownPid alive settings st).1.success = false ∧
       (∀ p, (check_existing_instance ownPid alive st.pidFile).1 = some p →
          containsSub (toString p) (main_menu_start ownPid alive settings st).1.output = true) ∧
       (handle_start_monitoring ownPid alive settings st).2 = st ∧
       (main_menu_start ownPid alive settings st).2 = st) ∧
    (pidTruthy (check_existing_instance ownPid alive st.pidFile).1 = false →
     enabledNames settings = [] →
       (handle_start_monitoring ownPid alive settings st).1.success = false ∧
       (main_menu_start ownPid alive settings st).1.success = false ∧
       (handle_start_monitoring ownPid alive settings st).2.running = st.running ∧
       (handle_start_monitoring ownPid alive settings st).2.threadLaunched = st.threadLaunched ∧
       (handle_start_monitoring ownPid alive settings st).2.history = st.history ∧
       (main_menu_start ownPid alive settings st).2.running = st.running ∧
       (main_menu_start ownPid alive settings st).2.threadLaunched = st.threadLaunched ∧
       (main_menu_start ownPid alive settings st).2.history = st.history ∧
       ((handle_start_monitoring ownPid alive settings st).2.pidFile = st.pidFile ∨
        (handle_start_monitoring ownPid alive settings st).2.pidFile = none)) ∧
    ((check_existing_instance ownPid alive st.pidFile).1 = none →
     enabledNames settings ≠ [] →
       (handle_start_monitoring ownPid alive settings st).2 =
         { st with pidFile := some (toString ownPid), running := true,
                   monitoringActive := true, threadLaunched := true } ∧
       (main_menu_start ownPid alive settings st).2 =
         { st with pidFile := some (toString ownPid), running := true,
                   monitoringActive := true, threadLaunched := true } ∧
       (handle_start_monitoring ownPid alive settings st).1.success = true ∧
       (main_menu_start ownPid alive settings st).1.success = true ∧
       (handle_start_monitoring ownPid alive settings st).2.history = st.history) := by
  refine ⟨?_, ?_, ?_⟩
  · intro htr
    have hkeep : (check_existing_instance ownPid alive st.pidFile).2 = st.pidFile := by
      cases hc : (check_existing_instance ownPid alive st.pidFile).1 with
      | none => rw [hc] at htr; simp [pidTruthy] at htr
      | some p => exact check_some_keeps_file _ _ _ _ hc
    refine ⟨?_, ?_, ?_, ?_, ?_, ?_⟩
    · simp [handle_start_monitoring, htr]
    · simp [handle_start_monitoring, htr]
    · simp [main_menu_start, htr]
    · intro p hp
      simp only [main_menu_start, htr, if_true]
      rw [hp]
      exact containsSub_append_middle (toString p) "Another instance is running (PID: "
        "). Please stop it first."
    · simp [handle_start_monitoring, htr, hkeep]
    · simp [main_menu_start, htr, hkeep]
  · intro htr he
    have hthen := check_file_cases ownPid alive st.pidFile
    refine ⟨?_, ?_, ?_, ?_, ?_, ?_, ?_, ?_, ?_⟩ <;>
      simp [handle_start_monitoring, main_menu_start, htr, he]
    exact hthen
  · intro hnone he
    have htr : pidTruthy (check_existing_instance ownPid alive st.pidFile).1 = false := by
      rw [hnone]; rfl
    have hclr := check_none_clears_file ownPid alive st.pidFile hnone
    refine ⟨?_, ?_, ?_, ?_, ?_⟩ <;>
      simp [handle_start_monitoring, main_menu_start, htr, he, hclr]

/-- Witness for C1: on a free guard with an enabled metric, both start paths
succeed. -/
theorem c1_start_lifecycle_witness :
    (handle_start_monitoring 7 aliveAll exSettings (idleState none)).1.success = true ∧
    (main_menu_start 7 aliveAll exSettings (idleState none)).1.success = true := by
  have h := (c1_start_lifecycle 7 aliveAll exSettings (idleState none)).2.2
    (by decide) (by decide)
  exact ⟨h.2.2.1, h.2.2.2.1⟩

/-! ### Claim C3 -/

/-- C3 counterexample: the web server's `metrics_history` is a plain Python
list with no capacity; after 101 insertions it holds 101 records, exceeding
the claimed bound of 100, so the bound does not hold for every consumer of
the history. -/
theorem c3_server_history_unbounded_counterexample :
    ((List.range 101).foldl serverHistoryAppend ([] : List Nat)).length = 101 ∧
    ¬ ((List.range 101).foldl serverHistoryAppend ([] : List Nat)).length ≤ 100 := by
  rw [foldl_serverHistoryAppend, List.nil_append, List.length_range]
  omega

/-- C3 (amended): the CLI history deque of capacity `N > 0` never exceeds `N`
elements, and after inserting `N + 1` distinct records into an empty buffer
it holds exactly the last `N` in insertion order: the oldest record is absent
and the newest present. The web server's plain-list history is exempt. -/
theorem c3_history_bounded (N : Nat) (hN : 0 < N) :
    (∀ l : List Nat, (dequeFold N l).length ≤ N) ∧
    dequeFold N (List.range (N + 1)) = (List.range N).map Nat.succ ∧
    (dequeFold N (List.range (N + 1))).length = N ∧
    0 ∉ dequeFold N (List.range (N + 1)) ∧
    N ∈ dequeFold N (List.range (N + 1)) := by
  have hdrop : dequeFold N (List.range (N + 1)) = (List.range N).map Nat.succ := by
    rw [dequeFold_eq_drop, List.length_range, Nat.add_sub_cancel_left,
      List.range_succ_eq_map]
    rfl
  refine ⟨?_, hdrop, ?_, ?_, ?_⟩
  · intro l
    rw [dequeFold_eq_drop, List.length_drop]
    omega
  · rw [hdrop]; simp
  · rw [hdrop]; simp
  · rw [hdrop]
    simp only [List.mem_map, List.mem_range]
    exact ⟨N - 1, by omega, by omega⟩

/-- Witness for C3 at the default capacity 100. -/
theorem c3_history_bounded_witness :
    (dequeFold 100 (List.range 101)).length = 100 :=
  (c3_history_bounded 100 (by norm_num)).2.2.1

/-! ### Claim C9 -/

/-- C9 counterexample: the server's in-place `save_json`, interrupted after
one character, leaves the settings file with the partial content `"a"` —
neither the old nor the new value — so not every writer in the system uses
write-temp-then-rename. -/
theorem c9_server_partial_write_counterexample :
    CrashReach (server_save_json "monitor_settings.json" "ab") fsOld fsBad ∧
    fsBad "monitor_settings.json" = some "a" ∧
    fsOld "monitor_settings.json" = some "old" ∧
    some "a" ≠ some "old" ∧ ("a" : String) ≠ "ab" := by
  refine ⟨CrashReach.mid _ _ _ _
    (CrashMid.midWrite "monitor_settings.json" "ab" fsOld 1 (by decide)),
    ?_, ?_, ?_, ?_⟩ <;> decide

/-- C9 (amended): the CLI monitor's `save_json` writes to `path + ".tmp"` and
atomically renames; however the sequence is interrupted, the target file
holds either its old content or the complete new content, never partial
content. The web server's `save_json` writes the target in place and is
exempt. -/
theorem c9_cli_atomic_replace (path content : String) (fs fs2 : Fs)
    (h : CrashReach (save_json path content) fs fs2) :
    fs2 path = fs path ∨ fs2 path = some content := by
  have hne : ¬ (path = path ++ ".tmp") := fun he => tmp_ne_path path he.symm
  cases h with
  | mid op ops fs fs2 hmid =>
    cases hmid with
    | before => exact Or.inl rfl
    | midWrite p c fs k hk =>
      left
      simp [hne]
    | after =>
      left
      simp [applyOp, hne]
  | step op ops fs fs2 h2 =>
    cases h2 with
    | mid op2 ops2 fsa fsb hmid2 =>
      cases hmid2 with
      | before =>
        left
        simp [applyOp, hne]
      | after =>
        right
        simp [applyOp, hne]
    | step op2 ops2 fsa fsb h3 =>
      cases h3 with
      | nil =>
        right
        simp [applyOp, hne]

/-- Witness for C9: the completed CLI write sequence ends with the new
content at the target. -/
theorem c9_cli_atomic_replace_witness :
    fsDone "monitor_settings.json" = fsOld "monitor_settings.json" ∨
    fsDone "monitor_settings.json" = some "ab" :=
  c9_cli_atomic_replace "monitor_settings.json" "ab" fsOld fsDone
    (CrashReach.step _ _ _ _ (CrashReach.step _ _ _ _ (CrashReach.nil _)))

/-! ### Claim C4 -/

/-- C4: for an enabled single-value probe with a parsed value, a max
Violation (recording the probe id, the value and the max bound) is produced
exactly when the max bound is set and exceeded, and independently a min
Violation exactly when the min bound is set and undercut — both may coexist
in one tick; in the concrete scenario (`temp` printing `"72"`, threshold
`max=70`) one tick yields the float sample 72.0, exactly the one max
violation, and that record is the sole entry in History. -/
theorem c4_threshold_violations (settings : Settings) (name : String)
    (v : PyNum) (w : Violation) :
    (w ∈ checkThresholds settings name v ↔
      (∃ mx, (lookupThresholds settings name).max? = some mx ∧ v.toQ > mx ∧
         w = ⟨name, v, .maxB, mx⟩) ∨
      (∃ mn, (lookupThresholds settings name).min? = some mn ∧ v.toQ < mn ∧
         w = ⟨name, v, .minB, mn⟩)) ∧
    collect_metrics exSettings exCfg exRun =
      .ok ([("temp", PyNum.pyFloat 72)],
           [⟨"temp", PyNum.pyFloat 72, .maxB, 70⟩], []) ∧
    recordsOf (background_monitor_loop (fun _ => exSettings) exCfg (fun _ => exRun) 1) =
      [⟨0, [("temp", PyNum.pyFloat 72)], [⟨"temp", PyNum.pyFloat 72, .maxB, 70⟩]⟩] ∧
    bufferOf (background_monitor_loop (fun _ => exSettings) exCfg (fun _ => exRun) 1) =
      [⟨0, [("temp", PyNum.pyFloat 72)], [⟨"temp", PyNum.pyFloat 72, .maxB, 70⟩]⟩] := by
  refine ⟨?_, by decide, by decide, by decide⟩
  rcases hth : lookupThresholds settings name with ⟨mx?, mn?, al⟩
  simp only [checkThresholds, hth]
  cases mx? with
  | none =>
    cases mn? with
    | none => simp
    | some mn =>
      by_cases hv : v.toQ < mn <;> simp [hv]
  | some mx =>
    cases mn? with
    | none =>
      by_cases hv : v.toQ > mx <;> simp [hv]
    | some mn =>
      by_cases hv1 : v.toQ > mx <;> by_cases hv2 : v.toQ < mn <;>
        simp [hv1, hv2]

/-- Witness for C4: the scenario violation is a member of the produced
violation list. -/
theorem c4_threshold_violations_witness :
    (⟨"temp", PyNum.pyFloat 72, .maxB, 70⟩ : Violation) ∈
      checkThresholds exSettings "temp" (PyNum.pyFloat 72) := by
  have h := (c4_threshold_violations exSettings "temp" (PyNum.pyFloat 72)
    ⟨"temp", PyNum.pyFloat 72, .maxB, 70⟩).1
  exact h.mpr (Or.inl ⟨70, by decide, by decide, rfl⟩)

/-! ### Claim C5 -/

/-- C5 counterexample: numeric text without a decimal point is parsed by the
generic fallback to a Python float, not an integer (`"72"` ↦ `72.0`), and the
per-probe parse warning is emitted again on every tick of one run — two ticks
over a probe printing `"abc"` warn twice — contrary to the claim. -/
theorem c5_generic_numeric_fallback_counterexample :
    containsSub "." "72" = false ∧
    pyIsDigit (pyStrip "72") = true ∧
    generic_numeric_parse "72" = .ok (some (PyNum.pyFloat 72)) ∧
    generic_numeric_parse "72" ≠ .ok (some (PyNum.pyInt 72)) ∧
    warningsOf (background_monitor_loop (fun _ => exSettings) exCfg
      (fun _ => badRun) 2) = ["temp", "temp"] := by
  decide

/-- C5 (amended): for a probe with no registered parser the generic numeric
parser never produces a Python integer (its integer branch is unreachable);
text passing the digit guard parses to a float or raises on pathological
guard-passing text (an embedded minus); any other text yields no value
without raising; an unparsable output then produces no metric entry, no
violation, and the per-probe debug warning on that tick (re-emitted every
tick, not once per run). -/
theorem c5_generic_numeric_fallback (name out : String)
    (hn : parsersMap.lookup name = none) (hping : name ≠ "ping_rtt") :
    (∀ v, parse_metric_output name out ≠ .ok (some (PyNum.pyInt v))) ∧
    (pyIsDigitList (removeFirst '-' (removeFirst '.' (pyStrip out).toList)) = true →
       parse_metric_output name out = .error () ∨
       ∃ q, pyFloatParse (pyStrip out) = some q ∧
            parse_metric_output name out = .ok (some (PyNum.pyFloat q))) ∧
    (pyIsDigitList (removeFirst '-' (removeFirst '.' (pyStrip out).toList)) = false →
       parse_metric_output name out = .ok none) ∧
    (∀ settings runCmd metric, metric.name = name → metric.command ≠ "" →
       runCmd metric.command ≠ "" →
       parse_metric_output name (runCmd metric.command) = .ok none →
       collectOne settings runCmd metric = .ok (none, [], [name])) := by
  refine ⟨?_, ?_, ?_, ?_⟩
  · intro v
    by_cases hout : out = ""
    · simp [parse_metric_output, hping, hout]
    · simp only [parse_metric_output, if_neg hping, if_neg hout, hn]
      exact generic_no_pyInt out v
  · intro hg
    have hout : out ≠ "" := by
      intro he
      subst he
      simp [pyStrip, pyStripChars, removeFirst, pyIsDigitList] at hg
    simp only [parse_metric_output, if_neg hping, if_neg hout, hn]
    simp only [generic_numeric_parse, hg, if_true]
    cases pyFloatParse (pyStrip out) with
    | none => exact Or.inl rfl
    | some q => exact Or.inr ⟨q, rfl, rfl⟩
  · intro hg
    by_cases hout : out = ""
    · simp [parse_metric_output, hping, hout]
    · simp only [parse_metric_output, if_neg hping, if_neg hout, hn]
      have hd : ¬ pyIsDigit (pyStrip out) = true := fun h => by
        rw [guard_of_isdigit _ h] at hg
        cases hg
      simp only [generic_numeric_parse, hg, hd, if_false]
      simp
  · intro settings runCmd metric hm hcmd hout hparse
    simp [collectOne, hm, hping, hcmd, hout, hparse]

/-- Witness for C5: the non-numeric output `"abc"` yields no value, no
violation and one warning for the probe. -/
theorem c5_generic_numeric_fallback_witness :
    parse_metric_output "temp" "abc" = .ok none ∧
    collectOne exSettings badRun ⟨"temp", "cat /sys/temp", ProbeType.dynamic_single⟩ =
      .ok (none, [], ["temp"]) := by
  have h := c5_generic_numeric_fallback "temp" "abc" rfl (by decide)
  have hp : parse_metric_output "temp" "abc" = .ok none := h.2.2.1 (by decide)
  exact ⟨hp, h.2.2.2 exSettings badRun
    ⟨"temp", "cat /sys/temp", ProbeType.dynamic_single⟩ rfl (by decide) (by decide) hp⟩

/-! ### Claim C6 -/

/-- C6 counterexample: with the registry file edited between ticks (the
`temp` probe removed at tick 1), the CLI loop still samples with the
configuration captured at thread start — the record of tick 1 carries a
`temp` sample — whereas the spec-side loop that re-reads both files samples
nothing at tick 1; so the registry is not re-read at the start of every tick. -/
theorem c6_registry_not_reloaded_counterexample :
    dynamicNames (exCfgAt 1) = [] ∧
    (recordsOf (background_monitor_loop (fun _ => exSettings) (exCfgAt 0)
       (fun _ => exRun) 2)).map SampleRecord.metrics =
      [[("temp", PyNum.pyFloat 72)], [("temp", PyNum.pyFloat 72)]] ∧
    (recordsOf (reload_both_loop_spec (fun _ => exSettings) exCfgAt
       (fun _ => exRun) 2)).map SampleRecord.metrics =
      [[("temp", PyNum.pyFloat 72)], []] := by
  refine ⟨by decide, by decide, by decide⟩

/-- C6 (amended): tick `n` of the CLI loop collects with the freshly re-read
settings `settingsAt n`, but always with the metrics configuration `cfg`
captured when the loop thread started; only settings edits take effect on the
next tick. -/
theorem c6_settings_reread_registry_cached (settingsAt : Nat → Settings)
    (cfg : MetricsConfig) (runCmdAt : Nat → String → String) (n : Nat)
    (st : LoopState)
    (h : background_monitor_loop settingsAt cfg runCmdAt n = .ok st) :
    background_monitor_loop settingsAt cfg runCmdAt (n + 1) =
      cliTick (settingsAt n) cfg (runCmdAt n) n st := by
  simp [background_monitor_loop, h]

/-- Witness for C6: the first tick of a concrete run is one `cliTick` on the
captured configuration. -/
theorem c6_settings_reread_registry_cached_witness :
    background_monitor_loop (fun _ => exSettings) exCfg (fun _ => exRun) 1 =
      cliTick exSettings exCfg exRun 0 ⟨[], [], [], []⟩ :=
  c6_settings_reread_registry_cached (fun _ => exSettings) exCfg (fun _ => exRun) 0
    ⟨[], [], [], []⟩ rfl

/-! ### Claim C7 -/

/-- C7 counterexample: the CLI `regenerate_monitor_settings` resets every
stored setting to the defaults — the still-present probe `temp` loses its
stored enabled flag and thresholds — contrary to the claim that settings of
present probes are kept unchanged. -/
theorem c7_cli_regenerate_resets_counterexample :
    (⟨"temp", true, ⟨some 70, none, true⟩⟩ : MetricSetting) ∈ exSettings.metrics ∧
    "temp" ∈ dynamicNames exCfg ∧
    (regenerate_monitor_settings exCfg exSettings).metrics =
      [⟨"temp", false, ⟨none, none, true⟩⟩] ∧
    (⟨"temp", true, ⟨some 70, none, true⟩⟩ : MetricSetting) ∉
      (regenerate_monitor_settings exCfg exSettings).metrics := by
  refine ⟨by decide, by decide, by decide, by decide⟩

/-- C7 (amended): the server regenerate endpoint reconciles as the claim
states — its output contains exactly the settings of `dynamic_single` probes,
keeps every stored setting of a still-present probe unchanged, and supplies
the default (disabled except `ping_rtt`) for probes with no stored setting —
while the CLI regenerate replaces everything with defaults and the CLI
startup reconciliation only removes stale settings. -/
theorem c7_reconcile (cfg : MetricsConfig) (settings : Settings)
    (hset : (settings.metrics.map MetricSetting.name).Nodup) :
    ((server_regenerate_monitor_settings cfg settings).general = settings.general) ∧
    (∀ m ∈ (server_regenerate_monitor_settings cfg settings).metrics,
       m.name ∈ dynamicNames cfg) ∧
    (∀ m ∈ settings.metrics, m.name ∈ dynamicNames cfg →
       m ∈ (server_regenerate_monitor_settings cfg settings).metrics) ∧
    (∀ n ∈ dynamicNames cfg, n ∉ settings.metrics.map MetricSetting.name →
       defaultSetting n ∈ (server_regenerate_monitor_settings cfg settings).metrics) ∧
    (∀ m ∈ (server_regenerate_monitor_settings cfg settings).metrics,
       m ∈ settings.metrics ∨
       (m.name ∉ settings.metrics.map MetricSetting.name ∧ m = defaultSetting m.name)) ∧
    (∀ n, (defaultSetting n).enabled = true ↔ n = "ping_rtt") ∧
    ((regenerate_monitor_settings cfg settings).metrics =
       (dynamicNames cfg).map defaultSetting) ∧
    (∀ m, m ∈ (main_reconcile cfg settings).metrics ↔
       m ∈ settings.metrics ∧ m.name ∈ dynamicNames cfg) := by
  refine ⟨rfl, ?_, ?_, ?_, ?_, ?_, rfl, ?_⟩
  · intro m hm
    rcases List.mem_map.mp hm with ⟨n, hn, he⟩
    cases hl : lookupLast settings.metrics n with
    | none => rw [← he]; simpa [hl, defaultSetting] using hn
    | some m0 => rw [← he]; simpa [hl] using hn
  · intro m hm hdy
    have hl := lookupLast_of_nodup settings.metrics m hset hm
    refine List.mem_map.mpr ⟨m.name, hdy, ?_⟩
    simp only [hl]
  · intro n hn hnm
    have hl : lookupLast settings.metrics n = none := by
      apply lookupLast_eq_none
      intro m0 hm0 he
      exact hnm (he ▸ List.mem_map_of_mem MetricSetting.name hm0)
    refine List.mem_map.mpr ⟨n, hn, ?_⟩
    simp only [hl]
  · intro m hm
    rcases List.mem_map.mp hm with ⟨n, hn, he⟩
    cases hl : lookupLast settings.metrics n with
    | none =>
      right
      have hmd : m = defaultSetting n := by rw [← he]; simp [hl]
      have hname : m.name = n := by rw [hmd]; simp [defaultSetting]
      constructor
      · intro hmem
        rcases List.mem_map.mp hmem with ⟨m1, hm1, he1⟩
        have h2 := lookupLast_of_nodup settings.metrics m1 hset hm1
        rw [he1, hname, hl] at h2
        cases h2
      · rw [hname]
        exact hmd
    | some m0 =>
      left
      have hmem := lookupLast_mem settings.metrics n m0 hl
      have : m = m0 := by
        rw [← he]
        simp only [hl]
        cases m0
        simp_all
      rw [this]
      exact hmem.1
  · intro n
    simp [defaultSetting]
  · intro m
    simp [main_reconcile, List.mem_filter]

/-- Witness for C7: the stored `temp` setting survives the server
reconciliation unchanged. -/
theorem c7_reconcile_witness :
    (⟨"temp", true, ⟨some 70, none, true⟩⟩ : MetricSetting) ∈
      (server_regenerate_monitor_settings exCfg exSettings).metrics := by
  have h := c7_reconcile exCfg exSettings (by decide)
  exact h.2.2.1 ⟨"temp", true, ⟨some 70, none, true⟩⟩ (by decide) (by decide)

/-! ### Claim C8 -/

theorem filterMap_filter_isSome {α β : Type} (f : α → Option β) (l : List α) :
    (l.filter (fun a => (f a).isSome)).filterMap f = l.filterMap f := by
  induction l with
  | nil => rfl
  | cons a t ih =>
    cases hl : f a with
    | none => simp [List.filter_cons, List.filterMap_cons, hl, ih]
    | some b => simp [List.filter_cons, List.filterMap_cons, hl, ih]

/-- C8 counterexample: with zero present values — a case of the claim's
"fewer than two values are present" — the statistics rows show N/A (`none`),
not a standard deviation of 0: probe `x` has no value anywhere in `hist3`. -/
theorem c8_zero_values_counterexample :
    presentValues hist3 "x" = [] ∧
    (presentValues hist3 "x").length < 2 ∧
    tableStdSq hist3 "x" = none ∧
    tableMean hist3 "x" = none ∧
    (none : Option ℚ) ≠ some 0 := by
  refine ⟨by decide, by decide, by decide, by decide, by decide⟩

/-- C8 (amended): statistics are computed over exactly the present values of
a probe (records missing the probe contribute nothing); with zero present
values the statistics are N/A (no value), with exactly one present value the
standard deviation is 0, and with two or more it is the sample statistic with
the `n - 1` divisor, so the history [10, 20, 30] has variance 100 and
standard deviation 10; the audit entry freezes the per-probe mean over the
last 5 records at write time (5 on the seven-record history 1…7, while the
table over the full buffer shows 4). -/
theorem c8_statistics :
    (∀ hist name,
       presentValues (hist.filter (fun e => (lookupMetric e.metrics name).isSome)) name =
         presentValues hist name) ∧
    (∀ hist name, presentValues hist name ≠ [] →
       (presentValues hist name).length ≤ 1 → tableStdSq hist name = some 0) ∧
    (∀ vs : List ℚ, 2 ≤ vs.length →
       ((vs.length : ℚ) - 1) * pyStdevSq vs =
         (vs.map (fun x => (x - pyMean vs) ^ 2)).sum) ∧
    presentValues hist3 "m" = [10, 20, 30] ∧
    tableMean hist3 "m" = some 20 ∧
    tableStdSq hist3 "m" = some 100 ∧
    ((10 : ℚ) ^ 2 = 100 ∧ (0 : ℚ) ≤ 10) ∧
    presentValues histMiss "m" = [10, 30] ∧
    tableMean histMiss "m" = some 20 ∧
    tableStdSq (lastN 1 hist3) "m" = some 0 ∧
    (log_metrics_entry 6 [("m", PyNum.pyFloat 7)] [] exSettings hist7).meanMap =
      [("m", 5)] ∧
    tableMean hist7 "m" = some 4 ∧
    (∀ hist name, presentValues hist name = [] →
       tableStdSq hist name = none ∧ tableMean hist name = none) := by
  have hpv3 : presentValues hist3 "m" = [10, 20, 30] := by decide
  have hpvM : presentValues histMiss "m" = [10, 30] := by decide
  have hpv1 : presentValues (lastN 1 hist3) "m" = [30] := by decide
  have hpv7 : presentValues hist7 "m" = [1, 2, 3, 4, 5, 6, 7] := by decide
  have hpv5 : presentValues (lastN 5 hist7) "m" = [3, 4, 5, 6, 7] := by decide
  refine ⟨?_, ?_, ?_, hpv3, ?_, ?_, ⟨by norm_num, by norm_num⟩, hpvM, ?_, ?_, ?_, ?_, ?_⟩
  · intro hist name
    simp [presentValues, filterMap_filter_isSome]
  · intro hist name h1 h2
    simp only [tableStdSq]
    rw [if_neg h1, if_neg (by omega)]
  · intro vs hlen
    have hne : ((vs.length : ℚ) - 1) ≠ 0 := by
      have h2 : (2 : ℚ) ≤ (vs.length : ℚ) := by exact_mod_cast hlen
      linarith
    rw [pyStdevSq, mul_comm]
    exact div_mul_cancel₀ _ hne
  · simp only [tableMean, hpv3]
    rw [if_neg (by decide)]
    norm_num [pyMean]
  · simp only [tableStdSq, hpv3]
    rw [if_neg (by decide), if_pos (by decide)]
    norm_num [pyStdevSq, pyMean]
  · simp only [tableMean, hpvM]
    rw [if_neg (by decide)]
    norm_num [pyMean]
  · simp only [tableStdSq, hpv1]
    rw [if_neg (by decide), if_neg (by decide)]
  · simp only [log_metrics_entry, List.filterMap_cons, List.filterMap_nil, hpv5]
    rw [if_neg (by decide)]
    norm_num [pyMean]
  · simp only [tableMean, hpv7]
    rw [if_neg (by decide)]
    norm_num [pyMean]
  · intro hist name h
    constructor
    · simp only [tableStdSq]
      rw [if_pos h]
    · simp only [tableMean]
      rw [if_pos h]

/-- Witness for C8: the sample-variance identity instantiated on the concrete
history values [10, 20, 30]. -/
theorem c8_statistics_witness :
    ((([(10 : ℚ), 20, 30]).length : ℚ) - 1) * pyStdevSq [10, 20, 30] =
      ([(10 : ℚ), 20, 30].map (fun x => (x - pyMean [10, 20, 30]) ^ 2)).sum :=
  c8_statistics.2.2.1 [10, 20, 30] (by norm_num)

end Monitor
